import Mathlib

/-!
Shallow embedding of the wallet spending-policy compiler of
mycitadel-desktop (`src/model/template.rs`): the `WalletTemplate`
constructors `singlesig`, `hodling` and `multisig`, together with the
calendar behaviour of `chrono::DateTime::with_year` that they rely on.

Rust panics (`unreachable!` and `Option::unwrap` on `None`) are modelled
as `Except PanicKind` errors; everything else is a direct translation of
the source. The ambient clock read `Utc::now()` is made an explicit
`now` argument, as the spec's concurrency section prescribes.
-/

set_option linter.unnecessarySeqFocus false

namespace MyCitadel

/-- Gregorian leap-year test, as implemented by chrono. -/
def isLeapYear (y : Int) : Bool :=
  y % 4 == 0 && (y % 100 != 0 || y % 400 == 0)

/-- Number of days of month `m` (1-based) in year `y`; `0` for an invalid
month index. -/
def daysInMonth (y : Int) (m : Nat) : Nat :=
  if m = 2 then (if isLeapYear y then 29 else 28)
  else if m = 4 ∨ m = 6 ∨ m = 9 ∨ m = 11 then 30
  else if 1 ≤ m ∧ m ≤ 12 then 31
  else 0

/-- A UTC instant (`chrono::DateTime<Utc>`): the calendar fields relevant
to `with_year`, plus the time of day in seconds (which `with_year` never
touches). -/
structure DateTime where
  year : Int
  month : Nat
  day : Nat
  secs : Nat
deriving DecidableEq, Repr

/-- `chrono::DateTime::with_year`: replace the year, keeping month, day
and time of day; `none` when the resulting date would be invalid (for
example February 29 of a non-leap year). -/
def DateTime.with_year (dt : DateTime) (y : Int) : Option DateTime :=
  if 1 ≤ dt.day ∧ dt.day ≤ daysInMonth y dt.month then
    some { dt with year := y }
  else
    none

/-- Strict chronological order on instants: lexicographic on
(year, month, day, seconds). -/
def DateTime.lt (a b : DateTime) : Bool :=
  if a.year ≠ b.year then decide (a.year < b.year)
  else if a.month ≠ b.month then decide (a.month < b.month)
  else if a.day ≠ b.day then decide (a.day < b.day)
  else decide (a.secs < b.secs)

/-- The three-state capability gate of `template.rs`. -/
inductive Requirement
| allow
| require
| deny
deriving DecidableEq, Repr

/-- Modelled from the spec: `SigsReq` (crate model module, not included
under src/) — a signature-threshold policy: all, any one, or at least
`k` signatures. -/
inductive SigsReq
| all
| any
| atLeast (k : Nat)
deriving DecidableEq, Repr

/-- Modelled from the spec: `TimelockReq` (crate model module, not
included under src/) — unconstrained, or usable only after an absolute
instant. -/
inductive TimelockReq
| anytime
| afterTime (t : DateTime)
deriving DecidableEq, Repr

/-- Strict order on time gates: `Anytime` precedes every `AfterTime`,
and `AfterTime`s compare as their instants. -/
def TimelockReq.lt : TimelockReq → TimelockReq → Bool
  | .anytime, .afterTime _ => true
  | .afterTime a, .afterTime b => DateTime.lt a b
  | _, _ => false

/-- Modelled from the spec: `SpendingCondition` (crate model module, not
included under src/) — one alternative unlocking branch, a
(SigsReq, TimelockReq) pair. -/
structure SpendingCondition where
  sigs : SigsReq
  timelock : TimelockReq
deriving DecidableEq, Repr

/-- Modelled from the spec: `SpendingCondition::default()` is the
strictest branch (All, Anytime). -/
def SpendingCondition.default : SpendingCondition :=
  { sigs := SigsReq.all, timelock := TimelockReq.anytime }

/-- Modelled from the spec: the wallet shapes the external `Bip43`
format selector distinguishes for this core — single-sig segwit v0,
single-sig taproot, multisig descriptor. -/
inductive WalletFormat
| singlesig_segwit0
| singlesig_taproot
| multisig_descriptor
deriving DecidableEq, Repr

namespace Bip43

/-- Modelled from the spec: `Bip43::singlesig_segwit0()` selects the
single-sig segwit v0 scheme. -/
def singlesig_segwit0 : WalletFormat := WalletFormat.singlesig_segwit0

/-- Modelled from the spec: `Bip43::singlelsig_taproot()` (the source's
spelling) selects the single-sig taproot scheme. -/
def singlelsig_taproot : WalletFormat := WalletFormat.singlesig_taproot

/-- Modelled from the spec: `Bip43::multisig_descriptor()` selects the
multisig descriptor scheme. -/
def multisig_descriptor : WalletFormat := WalletFormat.multisig_descriptor

end Bip43

/-- Modelled from the spec: `PublicNetwork` (crate model module, not
included under src/) — an opaque chain-network tag carried through
unchanged. -/
inductive PublicNetwork
| mainnet
| testnet
| signet
deriving DecidableEq, Repr

/-- The ways a constructor call can abort in the Rust source: the two
documented validation panics, and the undocumented
`with_year(..).unwrap()` panic on `None`. -/
inductive PanicKind
| invalidSignerCount
| invalidMultisigThreshold
| unwrapNone
deriving DecidableEq, Repr

/-- `WalletTemplate` of `template.rs`. -/
structure WalletTemplate where
  format : WalletFormat
  min_signer_count : Option Nat
  max_signer_count : Option Nat
  hardware_req : Requirement
  watch_only_req : Requirement
  conditions : List SpendingCondition
  network : PublicNetwork
deriving DecidableEq, Repr

/-- `WalletTemplate::singlesig` (template.rs lines 45-72), translated
verbatim: note the source selects `singlesig_segwit0` when `taproot` is
true and `singlelsig_taproot` when it is false. -/
def WalletTemplate.singlesig (taproot : Bool) (network : PublicNetwork)
    (require_hardware : Bool) : WalletTemplate :=
  let format := if taproot then Bip43.singlesig_segwit0 else Bip43.singlelsig_taproot
  let hardware_req := match require_hardware with
    | true => Requirement.require
    | false => Requirement.deny
  let watch_only_req := match require_hardware with
    | true => Requirement.deny
    | false => Requirement.require
  { format := format
    min_signer_count := some 1
    max_signer_count := some 1
    hardware_req := hardware_req
    watch_only_req := watch_only_req
    conditions := [SpendingCondition.default]
    network := network }

/-- `WalletTemplate::hodling` (template.rs lines 77-106). The
`unreachable!` for fewer than 3 signers and the `unwrap` of `with_year`
are surfaced as `Except` errors. -/
def WalletTemplate.hodling (network : PublicNetwork) (sigs_required : Nat)
    (hardware_req watch_only_req : Requirement) (now : DateTime) :
    Except PanicKind WalletTemplate :=
  if sigs_required < 3 then
    Except.error PanicKind.invalidSignerCount
  else
    match now.with_year (now.year + 5) with
    | none => Except.error PanicKind.unwrapNone
    | some t5 =>
      Except.ok
        { format := Bip43.multisig_descriptor
          min_signer_count := some sigs_required
          max_signer_count := none
          hardware_req := hardware_req
          watch_only_req := watch_only_req
          conditions :=
            [{ sigs := SigsReq.all, timelock := TimelockReq.anytime },
             { sigs := SigsReq.any, timelock := TimelockReq.afterTime t5 }]
          network := network }

/-- The `conditions` computation of `WalletTemplate::multisig`
(template.rs lines 118-155): the match on `sigs_required`, with the
`unreachable!` and the `unwrap`s surfaced as errors. -/
def multisigConditions (sigs_required : Option Nat) (now : DateTime) :
    Except PanicKind (List SpendingCondition) :=
  match sigs_required with
  | none => Except.ok [SpendingCondition.default]
  | some 0 | some 1 => Except.error PanicKind.invalidMultisigThreshold
  | some 2 =>
    match now.with_year (now.year + 5) with
    | none => Except.error PanicKind.unwrapNone
    | some t5 =>
      Except.ok
        [{ sigs := SigsReq.all, timelock := TimelockReq.anytime },
         { sigs := SigsReq.any, timelock := TimelockReq.afterTime t5 }]
  | some 3 =>
    match now.with_year (now.year + 5) with
    | none => Except.error PanicKind.unwrapNone
    | some t5 =>
      Except.ok
        [{ sigs := SigsReq.atLeast 2, timelock := TimelockReq.anytime },
         { sigs := SigsReq.any, timelock := TimelockReq.afterTime t5 }]
  | some count =>
    match now.with_year (now.year + 3) with
    | none => Except.error PanicKind.unwrapNone
    | some t3 =>
      match now.with_year (now.year + 5) with
      | none => Except.error PanicKind.unwrapNone
      | some t5 =>
        Except.ok
          [{ sigs := SigsReq.atLeast (count - 1), timelock := TimelockReq.anytime },
           { sigs := SigsReq.atLeast (count / 2 + count % 2),
             timelock := TimelockReq.afterTime t3 },
           { sigs := SigsReq.any, timelock := TimelockReq.afterTime t5 }]

/-- `WalletTemplate::multisig` (template.rs lines 111-165):
`min_signer_count` is `sigs_required.or(Some(2))`. -/
def WalletTemplate.multisig (network : PublicNetwork) (sigs_required : Option Nat)
    (hardware_req watch_only_req : Requirement) (now : DateTime) :
    Except PanicKind WalletTemplate :=
  match multisigConditions sigs_required now with
  | Except.error e => Except.error e
  | Except.ok conditions =>
    Except.ok
      { format := Bip43.multisig_descriptor
        min_signer_count := match sigs_required with
          | some n => some n
          | none => some 2
        max_signer_count := none
        hardware_req := hardware_req
        watch_only_req := watch_only_req
        conditions := conditions
        network := network }

/-- The `WalletTemplate` data-model invariant stated by the spec:
non-empty tier list, and `min ≤ max` when both bounds are present. -/
def templateInvariant (t : WalletTemplate) : Prop :=
  t.conditions ≠ [] ∧
    ∀ a b, t.min_signer_count = some a → t.max_signer_count = some b → a ≤ b

/-- The signature count a tier effectively requires out of `total`
signers: `All` is all of them, `Any` is one, `AtLeast k` is `k`. -/
def effThreshold (total : Nat) : SigsReq → Nat
  | .all => total
  | .any => 1
  | .atLeast k => k

/-- A fixed ordinary instant used by witnesses: 2022-04-15 00:00:00 UTC. -/
def testNow : DateTime := { year := 2022, month := 4, day := 15, secs := 0 }

/-- February 29 of the 2024 leap year (noon), a valid instant on which
the `with_year` calls of `hodling` and `multisig` return `None`. -/
def feb29 : DateTime := { year := 2024, month := 2, day := 29, secs := 43200 }

/-! ## Helper lemmas -/

/-- A successful `with_year` only replaces the year field. -/
theorem with_year_some (now : DateTime) (y : Int) (d : DateTime)
    (h : now.with_year y = some d) : d = { now with year := y } := by
  unfold DateTime.with_year at h
  split at h
  · exact (Option.some.inj h).symm
  · simp at h

/-- Replacing the year with a strictly larger one yields a strictly
later instant. -/
theorem date_lt_set_year (now : DateTime) (y1 y2 : Int) (h : y1 < y2) :
    DateTime.lt { now with year := y1 } { now with year := y2 } = true := by
  simp [DateTime.lt, Int.ne_of_lt h, h]

/-- `multisig` with an explicit threshold above 3, fully evaluated:
the three-tier decay schedule of template.rs lines 141-154. -/
theorem multisig_big_eq (net : PublicNetwork) (n : Nat) (hw wo : Requirement)
    (now d3 d5 : DateTime) (hn : 3 < n)
    (h3 : now.with_year (now.year + 3) = some d3)
    (h5 : now.with_year (now.year + 5) = some d5) :
    WalletTemplate.multisig net (some n) hw wo now =
      Except.ok
        { format := WalletFormat.multisig_descriptor
          min_signer_count := some n
          max_signer_count := none
          hardware_req := hw
          watch_only_req := wo
          conditions :=
            [{ sigs := SigsReq.atLeast (n - 1), timelock := TimelockReq.anytime },
             { sigs := SigsReq.atLeast (n / 2 + n % 2),
               timelock := TimelockReq.afterTime d3 },
             { sigs := SigsReq.any, timelock := TimelockReq.afterTime d5 }]
          network := net } := by
  obtain ⟨m, rfl⟩ : ∃ m, n = m + 4 := ⟨n - 4, by omega⟩
  have hc : multisigConditions (some (m + 4)) now =
      Except.ok
        [{ sigs := SigsReq.atLeast (m + 4 - 1), timelock := TimelockReq.anytime },
         { sigs := SigsReq.atLeast ((m + 4) / 2 + (m + 4) % 2),
           timelock := TimelockReq.afterTime d3 },
         { sigs := SigsReq.any, timelock := TimelockReq.afterTime d5 }] := by
    show (match now.with_year (now.year + 3) with
      | none => Except.error PanicKind.unwrapNone
      | some t3 =>
        match now.with_year (now.year + 5) with
        | none => Except.error PanicKind.unwrapNone
        | some t5 =>
          Except.ok
            [{ sigs := SigsReq.atLeast (m + 4 - 1), timelock := TimelockReq.anytime },
             { sigs := SigsReq.atLeast ((m + 4) / 2 + (m + 4) % 2),
               timelock := TimelockReq.afterTime t3 },
             { sigs := SigsReq.any, timelock := TimelockReq.afterTime t5 }] :
      Except PanicKind (List SpendingCondition)) = _
    rw [h3, h5]
  unfold WalletTemplate.multisig
  rw [hc]
  rfl

/-! ## Claim theorems -/

/-- C1: the claim says `singlesig` selects the taproot scheme when
`taproot` is true and the segwit v0 scheme when it is false; the code
(template.rs lines 50-54) does the opposite. This theorem evaluates the
code at both flag values, exhibiting the swap. -/
theorem singlesig_format_swapped (net : PublicNetwork) (h : Bool) :
    (WalletTemplate.singlesig true net h).format = WalletFormat.singlesig_segwit0 ∧
    (WalletTemplate.singlesig false net h).format = WalletFormat.singlesig_taproot :=
  ⟨rfl, rfl⟩

/-- C2: the claim says that, with the documented preconditions met, no
call fails for any current instant. But on February 29 of a leap year
(a perfectly valid instant) both `hodling` and `multisig` panic:
`with_year(year + 3)` and `with_year(year + 5)` return `None` (a leap
year plus 3 or 5 is never a leap year) and the source unwraps them. -/
theorem hodling_multisig_panic_on_leap_day :
    (1 ≤ feb29.day ∧ feb29.day ≤ daysInMonth feb29.year feb29.month) ∧
    WalletTemplate.hodling PublicNetwork.mainnet 3 Requirement.allow
      Requirement.allow feb29 = Except.error PanicKind.unwrapNone ∧
    WalletTemplate.multisig PublicNetwork.mainnet (some 2) Requirement.allow
      Requirement.allow feb29 = Except.error PanicKind.unwrapNone :=
  ⟨by decide, rfl, rfl⟩

/-- C3: for every explicit threshold n > 3, `multisig` returns the
three-tier schedule (AtLeast(n-1), Anytime), (AtLeast(ceil(n/2)),
AfterTime(now+3y)), (Any, AfterTime(now+5y)), with min_signer_count =
Some n and max_signer_count = None. -/
theorem multisig_large_threshold_tiers (net : PublicNetwork) (n : Nat)
    (hw wo : Requirement) (now d3 d5 : DateTime) (hn : 3 < n)
    (h3 : now.with_year (now.year + 3) = some d3)
    (h5 : now.with_year (now.year + 5) = some d5) :
    WalletTemplate.multisig net (some n) hw wo now =
      Except.ok
        { format := WalletFormat.multisig_descriptor
          min_signer_count := some n
          max_signer_count := none
          hardware_req := hw
          watch_only_req := wo
          conditions :=
            [{ sigs := SigsReq.atLeast (n - 1), timelock := TimelockReq.anytime },
             { sigs := SigsReq.atLeast ((n + 1) / 2),
               timelock := TimelockReq.afterTime d3 },
             { sigs := SigsReq.any, timelock := TimelockReq.afterTime d5 }]
          network := net } := by
  have hceil : (n + 1) / 2 = n / 2 + n % 2 := by omega
  rw [hceil]
  exact multisig_big_eq net n hw wo now d3 d5 hn h3 h5

/-- C3 witness: the concrete n = 5 scenario of the spec, at the fixed
instant 2022-04-15: tiers AtLeast(4)/Anytime, AtLeast(3)/after 2025,
Any/after 2027. -/
theorem multisig_large_threshold_tiers_witness :
    WalletTemplate.multisig PublicNetwork.mainnet (some 5) Requirement.deny
      Requirement.allow testNow =
      Except.ok
        { format := WalletFormat.multisig_descriptor
          min_signer_count := some 5
          max_signer_count := none
          hardware_req := Requirement.deny
          watch_only_req := Requirement.allow
          conditions :=
            [{ sigs := SigsReq.atLeast 4, timelock := TimelockReq.anytime },
             { sigs := SigsReq.atLeast 3,
               timelock := TimelockReq.afterTime
                 { year := 2025, month := 4, day := 15, secs := 0 } },
             { sigs := SigsReq.any,
               timelock := TimelockReq.afterTime
                 { year := 2027, month := 4, day := 15, secs := 0 } }]
          network := PublicNetwork.mainnet } :=
  multisig_large_threshold_tiers PublicNetwork.mainnet 5 Requirement.deny
    Requirement.allow testNow
    { year := 2025, month := 4, day := 15, secs := 0 }
    { year := 2027, month := 4, day := 15, secs := 0 }
    (by decide) rfl rfl

/-- C4: `hodling` fails with the InvalidSignerCount panic exactly when
`sigs_required` < 3 (for every current instant), and, the result being
a single `Except` value, no template is produced on failure. -/
theorem hodling_invalid_signer_count_iff (net : PublicNetwork) (k : Nat)
    (hw wo : Requirement) (now : DateTime) :
    WalletTemplate.hodling net k hw wo now =
      Except.error PanicKind.invalidSignerCount ↔ k < 3 := by
  unfold WalletTemplate.hodling
  split
  · simp_all
  · split <;> simp_all

/-- C5: `multisig` fails with the InvalidMultisigThreshold panic exactly
when the explicit threshold is 0 or 1 (for every current instant), and
with no explicit threshold it returns the single default tier
(All, Anytime) with min_signer_count = Some 2. -/
theorem multisig_threshold_error_iff_none_default (net : PublicNetwork)
    (sigs : Option Nat) (hw wo : Requirement) (now : DateTime) :
    (WalletTemplate.multisig net sigs hw wo now =
        Except.error PanicKind.invalidMultisigThreshold ↔
      (sigs = some 0 ∨ sigs = some 1)) ∧
    WalletTemplate.multisig net none hw wo now =
      Except.ok
        { format := WalletFormat.multisig_descriptor
          min_signer_count := some 2
          max_signer_count := none
          hardware_req := hw
          watch_only_req := wo
          conditions := [SpendingCondition.default]
          network := net } := by
  refine ⟨?_, rfl⟩
  rcases sigs with _ | n
  · simp [WalletTemplate.multisig, multisigConditions]
  · rcases n with _ | _ | _ | _ | m
    · simp [WalletTemplate.multisig, multisigConditions]
    · simp [WalletTemplate.multisig, multisigConditions]
    · rcases hy5 : now.with_year (now.year + 5) with _ | d5 <;>
        simp [WalletTemplate.multisig, multisigConditions, hy5]
    · rcases hy5 : now.with_year (now.year + 5) with _ | d5 <;>
        simp [WalletTemplate.multisig, multisigConditions, hy5]
    · rcases hy3 : now.with_year (now.year + 3) with _ | d3 <;>
        rcases hy5 : now.with_year (now.year + 5) with _ | d5 <;>
        simp [WalletTemplate.multisig, multisigConditions, hy3, hy5]

/-- C6: for every k ≥ 3, `hodling` returns exactly the two tiers
(All, Anytime) and (Any, AfterTime(now + 5 years)), and for the same
`now` this conditions list is structurally identical to the one
returned by `multisig` with explicit threshold 2. -/
theorem hodling_two_tiers_eq_multisig_two (net : PublicNetwork) (k : Nat)
    (hw wo : Requirement) (now d5 : DateTime) (hk : 3 ≤ k)
    (h5 : now.with_year (now.year + 5) = some d5) :
    ∃ t1 t2,
      WalletTemplate.hodling net k hw wo now = Except.ok t1 ∧
      WalletTemplate.multisig net (some 2) hw wo now = Except.ok t2 ∧
      t1.conditions =
        [{ sigs := SigsReq.all, timelock := TimelockReq.anytime },
         { sigs := SigsReq.any, timelock := TimelockReq.afterTime d5 }] ∧
      t2.conditions = t1.conditions := by
  refine
    ⟨{ format := Bip43.multisig_descriptor
       min_signer_count := some k
       max_signer_count := none
       hardware_req := hw
       watch_only_req := wo
       conditions :=
         [{ sigs := SigsReq.all, timelock := TimelockReq.anytime },
          { sigs := SigsReq.any, timelock := TimelockReq.afterTime d5 }]
       network := net },
     { format := Bip43.multisig_descriptor
       min_signer_count := some 2
       max_signer_count := none
       hardware_req := hw
       watch_only_req := wo
       conditions :=
         [{ sigs := SigsReq.all, timelock := TimelockReq.anytime },
          { sigs := SigsReq.any, timelock := TimelockReq.afterTime d5 }]
       network := net },
     ?_, ?_, rfl, rfl⟩
  · unfold WalletTemplate.hodling
    rw [if_neg (by omega), h5]
  · show (match multisigConditions (some 2) now with
      | Except.error e => Except.error e
      | Except.ok conditions =>
        Except.ok
          { format := Bip43.multisig_descriptor
            min_signer_count := some 2
            max_signer_count := none
            hardware_req := hw
            watch_only_req := wo
            conditions := conditions
            network := net } :
      Except PanicKind WalletTemplate) = _
    have hc : multisigConditions (some 2) now =
        Except.ok
          [{ sigs := SigsReq.all, timelock := TimelockReq.anytime },
           { sigs := SigsReq.any, timelock := TimelockReq.afterTime d5 }] := by
      show (match now.with_year (now.year + 5) with
        | none => Except.error PanicKind.unwrapNone
        | some t5 =>
          Except.ok
            [{ sigs := SigsReq.all, timelock := TimelockReq.anytime },
             { sigs := SigsReq.any, timelock := TimelockReq.afterTime t5 }] :
        Except PanicKind (List SpendingCondition)) = _
      rw [h5]
    rw [hc]

/-- C6 witness: the schedule at k = 3 and the fixed instant
2022-04-15, shared with `multisig(Some 2)`. -/
theorem hodling_two_tiers_eq_multisig_two_witness :
    ∃ t1 t2,
      WalletTemplate.hodling PublicNetwork.mainnet 3 Requirement.allow
        Requirement.allow testNow = Except.ok t1 ∧
      WalletTemplate.multisig PublicNetwork.mainnet (some 2) Requirement.allow
        Requirement.allow testNow = Except.ok t2 ∧
      t1.conditions =
        [{ sigs := SigsReq.all, timelock := TimelockReq.anytime },
         { sigs := SigsReq.any,
           timelock := TimelockReq.afterTime
             { year := 2027, month := 4, day := 15, secs := 0 } }] ∧
      t2.conditions = t1.conditions :=
  hodling_two_tiers_eq_multisig_two PublicNetwork.mainnet 3 Requirement.allow
    Requirement.allow testNow { year := 2027, month := 4, day := 15, secs := 0 }
    (by decide) rfl

/-- C7: for every explicit threshold n > 3, the schedule built by
`multisig` has effective thresholds n-1, ceil(n/2), 1 — non-increasing
across tiers — and strictly increasing timelocks
Anytime < AfterTime(now+3y) < AfterTime(now+5y). -/
theorem multisig_decay_monotone (net : PublicNetwork) (n : Nat)
    (hw wo : Requirement) (now d3 d5 : DateTime) (hn : 3 < n)
    (h3 : now.with_year (now.year + 3) = some d3)
    (h5 : now.with_year (now.year + 5) = some d5) :
    ∃ t, WalletTemplate.multisig net (some n) hw wo now = Except.ok t ∧
      t.conditions.map (fun c => effThreshold n c.sigs) = [n - 1, (n + 1) / 2, 1] ∧
      List.Chain' (fun a b => effThreshold n b.sigs ≤ effThreshold n a.sigs)
        t.conditions ∧
      List.Chain' (fun a b => TimelockReq.lt a.timelock b.timelock = true)
        t.conditions := by
  refine ⟨_, multisig_big_eq net n hw wo now d3 d5 hn h3 h5, ?_, ?_, ?_⟩
  · simp [effThreshold]
    omega
  · simp [List.chain'_cons, effThreshold]
    omega
  · obtain rfl := with_year_some now (now.year + 3) d3 h3
    obtain rfl := with_year_some now (now.year + 5) d5 h5
    simp [List.chain'_cons, TimelockReq.lt]
    exact date_lt_set_year now (now.year + 3) (now.year + 5) (by omega)

/-- C7 witness: monotone decay at n = 4 and the fixed instant
2022-04-15. -/
theorem multisig_decay_monotone_witness :
    ∃ t, WalletTemplate.multisig PublicNetwork.mainnet (some 4) Requirement.allow
        Requirement.allow testNow = Except.ok t ∧
      t.conditions.map (fun c => effThreshold 4 c.sigs) = [3, 2, 1] ∧
      List.Chain' (fun a b => effThreshold 4 b.sigs ≤ effThreshold 4 a.sigs)
        t.conditions ∧
      List.Chain' (fun a b => TimelockReq.lt a.timelock b.timelock = true)
        t.conditions :=
  multisig_decay_monotone PublicNetwork.mainnet 4 Requirement.allow
    Requirement.allow testNow
    { year := 2025, month := 4, day := 15, secs := 0 }
    { year := 2027, month := 4, day := 15, secs := 0 }
    (by decide) rfl rfl

/-- Every successful `conditions` computation of `multisig` yields a
non-empty list. -/
theorem multisigConditions_ne_nil (sigs : Option Nat) (now : DateTime)
    (c : List SpendingCondition) (h : multisigConditions sigs now = Except.ok c) :
    c ≠ [] := by
  rcases sigs with _ | n
  · simp [multisigConditions] at h
    simp [← h]
  · rcases n with _ | _ | _ | _ | m
    · simp [multisigConditions] at h
    · simp [multisigConditions] at h
    · rcases hy5 : now.with_year (now.year + 5) with _ | d5 <;>
        simp [multisigConditions, hy5] at h <;> simp [← h]
    · rcases hy5 : now.with_year (now.year + 5) with _ | d5 <;>
        simp [multisigConditions, hy5] at h <;> simp [← h]
    · rcases hy3 : now.with_year (now.year + 3) with _ | d3 <;>
        rcases hy5 : now.with_year (now.year + 5) with _ | d5 <;>
        simp [multisigConditions, hy3, hy5] at h <;> simp [← h]

/-- C8: every template any of the three constructors actually returns
satisfies the data-model invariant: non-empty tier list, and min ≤ max
whenever both signer-count bounds are present. -/
theorem constructed_templates_invariant (tp rh : Bool) (net : PublicNetwork)
    (k : Nat) (sigs : Option Nat) (hw wo : Requirement) (now : DateTime)
    (t : WalletTemplate)
    (h : t = WalletTemplate.singlesig tp net rh ∨
         WalletTemplate.hodling net k hw wo now = Except.ok t ∨
         WalletTemplate.multisig net sigs hw wo now = Except.ok t) :
    templateInvariant t := by
  unfold templateInvariant
  rcases h with h | h | h
  · subst h
    exact ⟨by simp [WalletTemplate.singlesig], by
      intro a b ha hb
      simp [WalletTemplate.singlesig] at ha hb
      omega⟩
  · unfold WalletTemplate.hodling at h
    split at h
    · simp at h
    · split at h
      · simp at h
      · obtain rfl := (Except.ok.inj h).symm
        exact ⟨by simp, by intro a b _ hb; simp at hb⟩
  · unfold WalletTemplate.multisig at h
    split at h
    · simp at h
    · next c heq =>
      obtain rfl := (Except.ok.inj h).symm
      exact ⟨multisigConditions_ne_nil sigs now c heq, by intro a b _ hb; simp at hb⟩

/-- C8 witness: the invariant for a concretely constructed single-sig
template. -/
theorem constructed_templates_invariant_witness :
    templateInvariant (WalletTemplate.singlesig true PublicNetwork.mainnet true) :=
  constructed_templates_invariant true true PublicNetwork.mainnet 3 none
    Requirement.allow Requirement.allow testNow
    (WalletTemplate.singlesig true PublicNetwork.mainnet true) (Or.inl rfl)

/-- C9: `singlesig` is total and always returns exactly one tier, the
default (All, Anytime), signer bounds 1 and 1, and exactly one of the
hardware / watch-only requirements set to Require with the other set to
Deny, for either value of `require_hardware`. -/
theorem singlesig_shape (tp : Bool) (net : PublicNetwork) (rh : Bool) :
    (WalletTemplate.singlesig tp net rh).conditions = [SpendingCondition.default] ∧
    (WalletTemplate.singlesig tp net rh).min_signer_count = some 1 ∧
    (WalletTemplate.singlesig tp net rh).max_signer_count = some 1 ∧
    (((WalletTemplate.singlesig tp net rh).hardware_req = Requirement.require ∧
      (WalletTemplate.singlesig tp net rh).watch_only_req = Requirement.deny) ∨
     ((WalletTemplate.singlesig tp net rh).hardware_req = Requirement.deny ∧
      (WalletTemplate.singlesig tp net rh).watch_only_req = Requirement.require)) := by
  cases rh
  · exact ⟨rfl, rfl, rfl, Or.inr ⟨rfl, rfl⟩⟩
  · exact ⟨rfl, rfl, rfl, Or.inl ⟨rfl, rfl⟩⟩

/-- C10: with the ambient clock made an explicit frozen `now` argument,
each constructor is deterministic: two calls with identical arguments
yield structurally equal results. -/
theorem constructors_deterministic (tp rh : Bool) (net : PublicNetwork)
    (k : Nat) (sigs : Option Nat) (hw wo : Requirement) (now : DateTime)
    (t1 t2 : WalletTemplate) (r1 r2 s1 s2 : Except PanicKind WalletTemplate)
    (ht1 : t1 = WalletTemplate.singlesig tp net rh)
    (ht2 : t2 = WalletTemplate.singlesig tp net rh)
    (hr1 : r1 = WalletTemplate.hodling net k hw wo now)
    (hr2 : r2 = WalletTemplate.hodling net k hw wo now)
    (hs1 : s1 = WalletTemplate.multisig net sigs hw wo now)
    (hs2 : s2 = WalletTemplate.multisig net sigs hw wo now) :
    t1 = t2 ∧ r1 = r2 ∧ s1 = s2 := by
  subst ht1 ht2 hr1 hr2 hs1 hs2
  exact ⟨rfl, rfl, rfl⟩

/-- C10 witness: determinism at concrete arguments and the fixed
instant 2022-04-15. -/
theorem constructors_deterministic_witness :
    WalletTemplate.singlesig true PublicNetwork.mainnet true =
      WalletTemplate.singlesig true PublicNetwork.mainnet true ∧
    WalletTemplate.hodling PublicNetwork.mainnet 3 Requirement.allow
        Requirement.allow testNow =
      WalletTemplate.hodling PublicNetwork.mainnet 3 Requirement.allow
        Requirement.allow testNow ∧
    WalletTemplate.multisig PublicNetwork.mainnet (some 2) Requirement.allow
        Requirement.allow testNow =
      WalletTemplate.multisig PublicNetwork.mainnet (some 2) Requirement.allow
        Requirement.allow testNow :=
  constructors_deterministic true true PublicNetwork.mainnet 3 (some 2)
    Requirement.allow Requirement.allow testNow
    (WalletTemplate.singlesig true PublicNetwork.mainnet true)
    (WalletTemplate.singlesig true PublicNetwork.mainnet true)
    (WalletTemplate.hodling PublicNetwork.mainnet 3 Requirement.allow
      Requirement.allow testNow)
    (WalletTemplate.hodling PublicNetwork.mainnet 3 Requirement.allow
      Requirement.allow testNow)
    (WalletTemplate.multisig PublicNetwork.mainnet (some 2) Requirement.allow
      Requirement.allow testNow)
    (WalletTemplate.multisig PublicNetwork.mainnet (some 2) Requirement.allow
      Requirement.allow testNow)
    rfl rfl rfl rfl rfl rfl

end MyCitadel
